import Mathlib

/-!
Verification of the SNMP core of the datadog-agent repository.

The definitions below are a shallow embedding of the Go source, primarily
`pkg/collector/corechecks/snmp/report/report_device_metadata.go` and the
surrounding SNMP check engine.  Go slices become Lean lists, Go `int`/`int64`
counters become `Nat`/`Int`, and fallible Go calls (`(T, error)` returns)
become `Option`/`Except` values.  Components of the engine whose
implementation is not part of the sampled sources (only their tests and
callers are) are modelled from the specification; each such definition says
so in its doc comment.
-/

namespace Snmp

/-! ## Metadata data model

Embeds the `metadata` package payload structures
(`NetworkDevicesMetadata`, `DeviceMetadata`, `InterfaceMetadata`,
`DeviceStatus`). Field names follow the Go struct fields. -/

/-- Modelled from the spec: `metadata.DeviceStatus` is an integer status,
`1` = reachable, `2` = unreachable (the JSON payloads in the sources show
`"status": 1` and `"status": 2`). -/
abbrev DeviceStatus := Int

/-- `metadata.DeviceStatusReachable` -/
def DeviceStatusReachable : DeviceStatus := 1

/-- `metadata.DeviceStatusUnreachable` -/
def DeviceStatusUnreachable : DeviceStatus := 2

/-- `metadata.DeviceMetadata`: one device record of a metadata payload. -/
structure DeviceMetadata where
  ID : String
  IDTags : List String
  Name : String
  Description : String
  IPAddress : String
  SysObjectID : String
  Profile : String
  Vendor : String
  Subnet : String
  Tags : List String
  Status : DeviceStatus
deriving DecidableEq, Repr

/-- `metadata.InterfaceMetadata`: one interface record of a metadata
payload.  Go `int32` fields are carried as `Int`. -/
structure InterfaceMetadata where
  DeviceID : String
  IDTags : List String
  Index : Int
  Name : String
  Alias : String
  Description : String
  MacAddress : String
  AdminStatus : Int
  OperStatus : Int
deriving DecidableEq, Repr

/-- `metadata.NetworkDevicesMetadata`: one metadata payload sent to the
event platform.  `CollectTimestamp` carries `collectTime.Unix()` (Go
`int64`). -/
structure NetworkDevicesMetadata where
  Subnet : String
  Namespace : String
  Devices : List DeviceMetadata
  Interfaces : List InterfaceMetadata
  CollectTimestamp : Int
deriving DecidableEq, Repr

/-- `metadata.PayloadMetadataBatchSize`: the fixed maximum number of
resources (devices + interfaces) per payload. Modelled from the spec:
the constant itself is declared in the `metadata` package, outside the
sampled sources; its concrete value is 100. -/
def PayloadMetadataBatchSize : Nat := 100

/-! ## batchPayloads

Embeds `batchPayloads` of `report_device_metadata.go` line for line. The Go
function maintains a running `resourceCount` and an open `payload`; when
`resourceCount` reaches `batchSize` the open payload is flushed and a fresh
payload (with no device record) is started, the current interface going into
the fresh payload.  The loop over `interfaces` becomes the structural
recursion `batchPayloadsLoop`. -/

/-- The loop body of `batchPayloads`: state is the accumulated `payloads`,
the open `payload`, and `resourceCount`; the remaining interfaces drive the
recursion. -/
def batchPayloadsLoop (subnet ns : String) (collectTime : Int) (batchSize : Nat)
    (payloads : List NetworkDevicesMetadata) (payload : NetworkDevicesMetadata)
    (resourceCount : Nat) :
    List InterfaceMetadata → List NetworkDevicesMetadata
  | [] => payloads ++ [payload]
  | interfaceMetadata :: rest =>
    if resourceCount = batchSize then
      batchPayloadsLoop subnet ns collectTime batchSize (payloads ++ [payload])
        { Subnet := subnet, Namespace := ns, Devices := [],
          Interfaces := [interfaceMetadata], CollectTimestamp := collectTime }
        1 rest
    else
      batchPayloadsLoop subnet ns collectTime batchSize payloads
        { payload with Interfaces := payload.Interfaces ++ [interfaceMetadata] }
        (resourceCount + 1) rest

/-- `batchPayloads(namespace, subnet, collectTime, batchSize, device,
interfaces)`: the initial open payload holds the device record
(`resourceCount` starts at 1), then the interfaces are folded in by
`batchPayloadsLoop`; the final open payload is appended at the end. -/
def batchPayloads (ns subnet : String) (collectTime : Int) (batchSize : Nat)
    (device : DeviceMetadata) (interfaces : List InterfaceMetadata) :
    List NetworkDevicesMetadata :=
  batchPayloadsLoop subnet ns collectTime batchSize []
    { Subnet := subnet, Namespace := ns, Devices := [device],
      Interfaces := [], CollectTimestamp := collectTime }
    1 interfaces

/-! ### Loop invariants of `batchPayloadsLoop` -/

/-- The number of payloads produced by the loop: the open payload holds
`resourceCount` resources, each flushed payload is full, so the result has
`⌈(resourceCount + rest.length) / batchSize⌉` payloads beyond the
accumulator. -/
theorem batchPayloadsLoop_length (subnet ns : String) (collectTime : Int)
    (batchSize : Nat) (hM : 1 ≤ batchSize) :
    ∀ (rest : List InterfaceMetadata) (payloads : List NetworkDevicesMetadata)
      (payload : NetworkDevicesMetadata) (rc : Nat), 1 ≤ rc → rc ≤ batchSize →
      (batchPayloadsLoop subnet ns collectTime batchSize payloads payload rc rest).length
        = payloads.length + (rc + rest.length + (batchSize - 1)) / batchSize := by
  intro rest
  induction rest with
  | nil =>
    intro payloads payload rc h1 h2
    have hdiv : (rc + (batchSize - 1)) / batchSize = 1 := by
      apply Nat.div_eq_of_lt_le <;> omega
    simp [batchPayloadsLoop, hdiv]
  | cons i rest ih =>
    intro payloads payload rc h1 h2
    by_cases hrc : rc = batchSize
    · rw [batchPayloadsLoop, if_pos hrc,
        ih (payloads ++ [payload]) _ 1 le_rfl hM, hrc]
      have h3 : 1 + rest.length + (batchSize - 1) = rest.length + batchSize := by omega
      have h4 : batchSize + (i :: rest).length + (batchSize - 1)
          = rest.length + batchSize + batchSize := by
        simp only [List.length_cons]; omega
      rw [h3, h4, Nat.add_div_right _ hM, Nat.add_div_right _ hM,
        Nat.add_div_right _ hM]
      simp only [List.length_append, List.length_cons, List.length_nil]
      generalize rest.length / batchSize = q
      omega
    · rw [batchPayloadsLoop, if_neg hrc,
        ih payloads _ (rc + 1) (by omega) (by omega)]
      congr 2
      simp only [List.length_cons]
      omega

/-- Device records through the loop: the accumulator's device lists are
unchanged, the open payload's device list comes next, and every payload
opened afterwards has an empty device list. -/
theorem batchPayloadsLoop_devices (subnet ns : String) (collectTime : Int)
    (batchSize : Nat) :
    ∀ (rest : List InterfaceMetadata) (payloads : List NetworkDevicesMetadata)
      (payload : NetworkDevicesMetadata) (rc : Nat),
      ∃ k, (batchPayloadsLoop subnet ns collectTime batchSize payloads payload rc rest).map
          (fun p => p.Devices)
        = payloads.map (fun p => p.Devices) ++ payload.Devices :: List.replicate k [] := by
  intro rest
  induction rest with
  | nil =>
    intro payloads payload rc
    exact ⟨0, by simp [batchPayloadsLoop]⟩
  | cons i rest ih =>
    intro payloads payload rc
    by_cases hrc : rc = batchSize
    · obtain ⟨k, hk⟩ := ih (payloads ++ [payload])
        { Subnet := subnet, Namespace := ns, Devices := [],
          Interfaces := [i], CollectTimestamp := collectTime } 1
      refine ⟨k + 1, ?_⟩
      rw [batchPayloadsLoop, if_pos hrc, hk]
      simp [List.replicate_succ]
    · obtain ⟨k, hk⟩ := ih payloads
        { payload with Interfaces := payload.Interfaces ++ [i] } (rc + 1)
      refine ⟨k, ?_⟩
      rw [batchPayloadsLoop, if_neg hrc, hk]

/-- Interface records through the loop: concatenating the interface lists
of all produced payloads, in payload order, yields the accumulator's
interfaces, then the open payload's interfaces, then the remaining input
interfaces in their original order. -/
theorem batchPayloadsLoop_interfaces (subnet ns : String) (collectTime : Int)
    (batchSize : Nat) :
    ∀ (rest : List InterfaceMetadata) (payloads : List NetworkDevicesMetadata)
      (payload : NetworkDevicesMetadata) (rc : Nat),
      ((batchPayloadsLoop subnet ns collectTime batchSize payloads payload rc rest).map
          (fun p => p.Interfaces)).flatten
        = (payloads.map (fun p => p.Interfaces)).flatten ++ payload.Interfaces ++ rest := by
  intro rest
  induction rest with
  | nil =>
    intro payloads payload rc
    simp [batchPayloadsLoop]
  | cons i rest ih =>
    intro payloads payload rc
    by_cases hrc : rc = batchSize
    · rw [batchPayloadsLoop, if_pos hrc, ih]
      simp
    · rw [batchPayloadsLoop, if_neg hrc, ih]
      simp

/-- Run-constant fields through the loop: if every accumulated payload and
the open payload carry the loop's subnet, namespace and collect timestamp,
then so does every payload of the result. -/
theorem batchPayloadsLoop_const (subnet ns : String) (collectTime : Int)
    (batchSize : Nat) :
    ∀ (rest : List InterfaceMetadata) (payloads : List NetworkDevicesMetadata)
      (payload : NetworkDevicesMetadata) (rc : Nat),
      (∀ q ∈ payloads, q.Subnet = subnet ∧ q.Namespace = ns ∧
        q.CollectTimestamp = collectTime) →
      (payload.Subnet = subnet ∧ payload.Namespace = ns ∧
        payload.CollectTimestamp = collectTime) →
      ∀ q ∈ batchPayloadsLoop subnet ns collectTime batchSize payloads payload rc rest,
        q.Subnet = subnet ∧ q.Namespace = ns ∧ q.CollectTimestamp = collectTime := by
  intro rest
  induction rest with
  | nil =>
    intro payloads payload rc hacc hp q hq
    simp [batchPayloadsLoop] at hq
    rcases hq with hq | hq
    · exact hacc q hq
    · exact hq ▸ hp
  | cons i rest ih =>
    intro payloads payload rc hacc hp q hq
    by_cases hrc : rc = batchSize
    · rw [batchPayloadsLoop, if_pos hrc] at hq
      refine ih _ _ 1 ?_ (by simp) q hq
      intro q' hq'
      simp at hq'
      rcases hq' with hq' | hq'
      · exact hacc q' hq'
      · exact hq' ▸ hp
    · rw [batchPayloadsLoop, if_neg hrc] at hq
      exact ih _ _ (rc + 1) hacc (by simpa using hp) q hq

/-- Resource-count bound through the loop: if every accumulated payload
holds at most `batchSize` resources and the open payload holds exactly
`rc ≤ batchSize` resources, every produced payload holds at most
`batchSize` resources (devices and interfaces counted together). -/
theorem batchPayloadsLoop_size (subnet ns : String) (collectTime : Int)
    (batchSize : Nat) (hM : 1 ≤ batchSize) :
    ∀ (rest : List InterfaceMetadata) (payloads : List NetworkDevicesMetadata)
      (payload : NetworkDevicesMetadata) (rc : Nat), rc ≤ batchSize →
      payload.Devices.length + payload.Interfaces.length = rc →
      (∀ q ∈ payloads, q.Devices.length + q.Interfaces.length ≤ batchSize) →
      ∀ q ∈ batchPayloadsLoop subnet ns collectTime batchSize payloads payload rc rest,
        q.Devices.length + q.Interfaces.length ≤ batchSize := by
  intro rest
  induction rest with
  | nil =>
    intro payloads payload rc hrc hsize hacc q hq
    simp [batchPayloadsLoop] at hq
    rcases hq with hq | hq
    · exact hacc q hq
    · subst hq; omega
  | cons i rest ih =>
    intro payloads payload rc hrc hsize hacc q hq
    by_cases heq : rc = batchSize
    · rw [batchPayloadsLoop, if_pos heq] at hq
      refine ih _ _ 1 hM (by simp) ?_ q hq
      intro q' hq'
      simp at hq'
      rcases hq' with hq' | hq'
      · exact hacc q' hq'
      · subst hq'; omega
    · rw [batchPayloadsLoop, if_neg heq] at hq
      refine ih _ _ (rc + 1) (by omega) ?_ hacc q hq
      simp [hsize]; omega

/-- A concrete device record used to instantiate theorems. -/
def sampleDevice : DeviceMetadata :=
  { ID := "default:1.2.3.4",
    IDTags := ["device_namespace:default", "snmp_device:1.2.3.4"],
    Name := "foo_sys_name", Description := "", IPAddress := "1.2.3.4",
    SysObjectID := "", Profile := "", Vendor := "",
    Subnet := "10.0.0.0/24", Tags := [], Status := DeviceStatusReachable }

/-- A concrete interface record (row index `i`) used to instantiate
theorems. -/
def sampleInterface (i : Int) : InterfaceMetadata :=
  { DeviceID := "default:1.2.3.4", IDTags := ["interface:eth"], Index := i,
    Name := "eth", Alias := "", Description := "",
    MacAddress := "00:00:00:00:00:01", AdminStatus := 1, OperStatus := 1 }

/-- C1: batching one device record with K interfaces under payload budget
M ≥ 1 via `batchPayloads` yields exactly `⌈(K+1)/M⌉ = (K + 1 + (M-1)) / M`
payloads; every payload holds at most M resources (devices and interfaces
counted against the same budget); the device record is the sole device
entry of the first payload and every later payload carries no device
record. -/
theorem batchPayloads_count_and_shape (ns subnet : String) (collectTime : Int)
    (batchSize : Nat) (device : DeviceMetadata)
    (interfaces : List InterfaceMetadata) (hM : 1 ≤ batchSize) :
    (batchPayloads ns subnet collectTime batchSize device interfaces).length
        = (interfaces.length + 1 + (batchSize - 1)) / batchSize
    ∧ (∀ p ∈ batchPayloads ns subnet collectTime batchSize device interfaces,
        p.Devices.length + p.Interfaces.length ≤ batchSize)
    ∧ (batchPayloads ns subnet collectTime batchSize device interfaces).map
          (fun p => p.Devices)
        = [device] :: List.replicate
            ((batchPayloads ns subnet collectTime batchSize device
              interfaces).length - 1) [] := by
  have hlen : (batchPayloads ns subnet collectTime batchSize device interfaces).length
      = (interfaces.length + 1 + (batchSize - 1)) / batchSize := by
    rw [batchPayloads,
      batchPayloadsLoop_length subnet ns collectTime batchSize hM interfaces []
        _ 1 le_rfl hM]
    simp only [List.length_nil, Nat.zero_add]
    congr 1
    omega
  refine ⟨hlen, ?_, ?_⟩
  · intro p hp
    rw [batchPayloads] at hp
    exact batchPayloadsLoop_size subnet ns collectTime batchSize hM interfaces []
      _ 1 hM (by simp) (by simp) p hp
  · obtain ⟨k, hk⟩ := batchPayloadsLoop_devices subnet ns collectTime batchSize
      interfaces []
      { Subnet := subnet, Namespace := ns, Devices := [device],
        Interfaces := [], CollectTimestamp := collectTime } 1
    rw [batchPayloads, hk]
    have hlen2 : (batchPayloadsLoop subnet ns collectTime batchSize []
        { Subnet := subnet, Namespace := ns, Devices := [device],
          Interfaces := [], CollectTimestamp := collectTime } 1 interfaces).length
        = k + 1 := by
      have := congrArg List.length hk
      simpa [Nat.add_comm] using this
    rw [hlen2]
    simp

/-- C1 witness: budget M = 2 with K = 3 interfaces yields
⌈4/2⌉ = 2 payloads with the stated shape. -/
theorem batchPayloads_count_and_shape_witness :
    1 ≤ 2 ∧
    ((batchPayloads "default" "10.0.0.0/24" 946684800 2 sampleDevice
          [sampleInterface 1, sampleInterface 2, sampleInterface 3]).length
        = ([sampleInterface 1, sampleInterface 2, sampleInterface 3].length
            + 1 + (2 - 1)) / 2
      ∧ (∀ p ∈ batchPayloads "default" "10.0.0.0/24" 946684800 2 sampleDevice
            [sampleInterface 1, sampleInterface 2, sampleInterface 3],
          p.Devices.length + p.Interfaces.length ≤ 2)
      ∧ (batchPayloads "default" "10.0.0.0/24" 946684800 2 sampleDevice
            [sampleInterface 1, sampleInterface 2, sampleInterface 3]).map
            (fun p => p.Devices)
          = [sampleDevice] :: List.replicate
              ((batchPayloads "default" "10.0.0.0/24" 946684800 2 sampleDevice
                [sampleInterface 1, sampleInterface 2, sampleInterface 3]).length
                - 1) []) :=
  ⟨by decide,
    batchPayloads_count_and_shape "default" "10.0.0.0/24" 946684800 2 sampleDevice
      [sampleInterface 1, sampleInterface 2, sampleInterface 3] (by decide)⟩

/-- C10: `batchPayloads` preserves content and order: every produced
payload carries the run's subnet, namespace and collect timestamp; only
the first payload contains a device record (and it is exactly the input
device); and the concatenation of the `Interfaces` lists of all payloads,
in payload order, equals the input interface list element for element. -/
theorem batchPayloads_order_preserving (ns subnet : String) (collectTime : Int)
    (batchSize : Nat) (device : DeviceMetadata)
    (interfaces : List InterfaceMetadata) :
    (∀ p ∈ batchPayloads ns subnet collectTime batchSize device interfaces,
        p.Subnet = subnet ∧ p.Namespace = ns ∧ p.CollectTimestamp = collectTime)
    ∧ (batchPayloads ns subnet collectTime batchSize device interfaces).head?.map
          (fun p => p.Devices) = some [device]
    ∧ (∀ p ∈ (batchPayloads ns subnet collectTime batchSize device
          interfaces).tail, p.Devices = [])
    ∧ ((batchPayloads ns subnet collectTime batchSize device interfaces).map
          (fun p => p.Interfaces)).flatten = interfaces := by
  obtain ⟨k, hk⟩ := batchPayloadsLoop_devices subnet ns collectTime batchSize
    interfaces []
    { Subnet := subnet, Namespace := ns, Devices := [device],
      Interfaces := [], CollectTimestamp := collectTime } 1
  simp only [List.map_nil, List.nil_append] at hk
  refine ⟨?_, ?_, ?_, ?_⟩
  · intro p hp
    rw [batchPayloads] at hp
    exact batchPayloadsLoop_const subnet ns collectTime batchSize interfaces []
      _ 1 (by simp) (by simp) p hp
  · rw [batchPayloads]
    rcases hps : batchPayloadsLoop subnet ns collectTime batchSize []
        { Subnet := subnet, Namespace := ns, Devices := [device],
          Interfaces := [], CollectTimestamp := collectTime } 1 interfaces with
      _ | ⟨q, qs⟩
    · rw [hps] at hk
      simp at hk
    · rw [hps] at hk
      simp only [List.map_cons, List.cons.injEq] at hk
      simp [hk.1]
  · intro p hp
    rw [batchPayloads] at hp
    rcases hps : batchPayloadsLoop subnet ns collectTime batchSize []
        { Subnet := subnet, Namespace := ns, Devices := [device],
          Interfaces := [], CollectTimestamp := collectTime } 1 interfaces with
      _ | ⟨q, qs⟩
    · rw [hps] at hp
      simp at hp
    · rw [hps] at hk
      simp only [List.map_cons, List.cons.injEq] at hk
      rw [hps] at hp
      simp only [List.tail_cons] at hp
      have : p.Devices ∈ List.replicate k ([] : List DeviceMetadata) := by
        rw [← hk.2]
        exact List.mem_map_of_mem _ hp
      exact List.eq_of_mem_replicate this
  · rw [batchPayloads, batchPayloadsLoop_interfaces]
    simp

/-! ## Value store and check configuration

The `valuestore` and `checkconfig` packages are outside the sampled
sources; the parts consumed by `report_device_metadata.go` are modelled
from the specification (§3 Value Store: scalar OID → typed value and
(column OID, row index) → typed value; §3 Check Config). -/

/-- Modelled from the spec: a typed SNMP result value.  The metadata
builder only ever renders values as strings or as numbers; fractional
float64 renderings are not exercised by any claim, so numbers are carried
as `Int`. -/
inductive ResultValue where
  | str (s : String)
  | num (n : Int)
deriving DecidableEq, Repr

/-- Render a result value the way `ResultValue.ToString` does for the
values appearing here: strings verbatim, numbers in decimal. -/
def ResultValue.render : ResultValue → String
  | .str s => s
  | .num n => toString n

/-- Parse a non-empty run of decimal digits (helper for `atoi`). -/
def parseNatDigits (cs : List Char) : Option Nat :=
  cs.foldl
    (fun acc c =>
      match acc with
      | some n => if c.isDigit then some (n * 10 + (c.toNat - 48)) else none
      | none => none)
    (if cs.isEmpty then none else some 0)

/-- Models Go `strconv.Atoi`: an optional sign followed by at least one
decimal digit, rejecting anything else. -/
def atoi (s : String) : Option Int :=
  match s.data with
  | '-' :: rest => (parseNatDigits rest).map (fun n => -(n : Int))
  | '+' :: rest => (parseNatDigits rest).map (fun n => (n : Int))
  | cs => (parseNatDigits cs).map (fun n => (n : Int))

/-- Numeric reading of a result value (`ResultValue.ToFloat64`, restricted
to integers): numbers verbatim, strings parsed, 0 on failure. -/
def ResultValue.toNum : ResultValue → Int
  | .num n => n
  | .str s => (atoi s).getD 0

/-- Modelled from the spec: the Value Store of one polling pass — scalar
values keyed by OID, column values keyed by (column OID, row index
string). -/
structure ResultValueStore where
  ScalarValues : List (String × ResultValue)
  ColumnValues : List (String × List (String × ResultValue))
deriving DecidableEq, Repr

/-- Lexicographic order on character lists, used to model Go's string
order. -/
def charListLt : List Char → List Char → Bool
  | [], [] => false
  | [], _ :: _ => true
  | _ :: _, [] => false
  | c :: cs, d :: ds =>
    if c.toNat < d.toNat then true
    else if d.toNat < c.toNat then false
    else charListLt cs ds

/-- Go string `<` (lexicographic by character). -/
def stringLt (s t : String) : Bool := charListLt s.data t.data

/-- Insert a string into a sorted list of strings. -/
def insertSortedString (s : String) : List String → List String
  | [] => [s]
  | t :: rest =>
    if stringLt t s then t :: insertSortedString s rest else s :: t :: rest

/-- Insertion sort over strings (models Go `sort.Strings`). -/
def sortStrings : List String → List String
  | [] => []
  | s :: rest => insertSortedString s (sortStrings rest)

/-- Remove adjacent duplicates of a sorted list. -/
def dedupAdjacent : List String → List String
  | [] => []
  | [s] => [s]
  | s :: t :: rest =>
    if s = t then dedupAdjacent (t :: rest) else s :: dedupAdjacent (t :: rest)

/-- Modelled from the spec: `util.SortUniqInPlace` sorts the tag list and
removes duplicate tags. -/
def sortUniqInPlace (tags : List String) : List String :=
  dedupAdjacent (sortStrings tags)

/-- Modelled from the spec: `GetScalarValueAsString` renders the scalar
value stored at `oid`, or returns the empty string when the OID is
absent. -/
def ResultValueStore.GetScalarValueAsString (store : ResultValueStore)
    (oid : String) : String :=
  match store.ScalarValues.lookup oid with
  | some v => v.render
  | none => ""

/-- Modelled from the spec: `GetColumnValues` returns the (row index →
value) mapping of one column, or an error when the column OID is absent. -/
def ResultValueStore.GetColumnValues (store : ResultValueStore)
    (columnOid : String) : Except String (List (String × ResultValue)) :=
  match store.ColumnValues.lookup columnOid with
  | some m => .ok m
  | none => .error ("value for Column OID not found: " ++ columnOid)

/-- Modelled from the spec: `GetColumnIndexes` returns the sorted row
indexes of one column, or an error when the column is absent. -/
def ResultValueStore.GetColumnIndexes (store : ResultValueStore)
    (columnOid : String) : Except String (List String) :=
  match store.GetColumnValues columnOid with
  | .ok values => .ok (sortStrings (values.map (fun v => v.1)))
  | .error e => .error e

/-- Modelled from the spec: `GetColumnValueAsString` renders the value of
one column at one row index, or returns the empty string when absent. -/
def ResultValueStore.GetColumnValueAsString (store : ResultValueStore)
    (columnOid index : String) : String :=
  match store.GetColumnValues columnOid with
  | .ok values =>
    match values.lookup index with
    | some v => v.render
    | none => ""
  | .error _ => ""

/-- Modelled from the spec: `GetColumnValueAsFloat` reads the value of one
column at one row index numerically, or returns 0 when absent. -/
def ResultValueStore.GetColumnValueAsFloat (store : ResultValueStore)
    (columnOid index : String) : Int :=
  match store.GetColumnValues columnOid with
  | .ok values =>
    match values.lookup index with
    | some v => v.toNum
    | none => 0
  | .error _ => 0

/-- `profiledefinition` device metadata: the `device:` block of a profile
(`Device.Vendor` is the only field the metadata builder reads). -/
structure ProfileDeviceMeta where
  Vendor : String
deriving DecidableEq, Repr

/-- Modelled from the spec: the fields of `checkconfig.CheckConfig` that the
device metadata builder consumes — device identity, namespace, resolved
subnet, configured/resolved profile. -/
structure CheckConfig where
  IPAddress : String
  DeviceID : String
  DeviceIDTags : List String
  Namespace : String
  ResolvedSubnetName : String
  Profile : String
  ProfileDef : Option ProfileDeviceMeta
deriving DecidableEq, Repr

/-! ## Device metadata builder

Embeds `buildNetworkDeviceMetadata`, `buildNetworkInterfacesMetadata` and
`ReportNetworkDeviceMetadata` of `report_device_metadata.go`.  A nil Go
`*ResultValueStore` becomes `Option ResultValueStore`. -/

/-- `metadata.SysNameOID` -/
def SysNameOID : String := "1.3.6.1.2.1.1.5.0"

/-- `metadata.SysDescrOID` -/
def SysDescrOID : String := "1.3.6.1.2.1.1.1.0"

/-- `metadata.SysObjectIDOID` -/
def SysObjectIDOID : String := "1.3.6.1.2.1.1.2.0"

/-- `metadata.IfNameOID` -/
def IfNameOID : String := "1.3.6.1.2.1.31.1.1.1.1"

/-- `metadata.IfAliasOID` -/
def IfAliasOID : String := "1.3.6.1.2.1.31.1.1.1.18"

/-- `metadata.IfDescrOID` -/
def IfDescrOID : String := "1.3.6.1.2.1.2.2.1.2"

/-- `metadata.IfPhysAddressOID` -/
def IfPhysAddressOID : String := "1.3.6.1.2.1.2.2.1.6"

/-- `metadata.IfAdminStatusOID` -/
def IfAdminStatusOID : String := "1.3.6.1.2.1.2.2.1.7"

/-- `metadata.IfOperStatusOID` -/
def IfOperStatusOID : String := "1.3.6.1.2.1.2.2.1.8"

/-- `interfaceNameTagKey`: the `interface` tag key used for interface ID
tags. -/
def interfaceNameTagKey : String := "interface"

/-- `epforwarder.EventTypeNetworkDevicesMetadata` -/
def EventTypeNetworkDevicesMetadata : String := "network-devices-metadata"

/-- Go `int32(n)` conversion: wrap an `Int` into the signed 32-bit range. -/
def int32ofInt (n : Int) : Int := (n + 2 ^ 31) % 2 ^ 32 - 2 ^ 31

/-- Embeds `buildNetworkDeviceMetadata`: name/description/sysObjectID come
from the scalar store when one exists (empty strings otherwise); the
vendor comes from the resolved profile definition when one exists; the
rest comes from the check config and the passed tags and status. -/
def buildNetworkDeviceMetadata (deviceID : String) (idTags : List String)
    (config : CheckConfig) (store : Option ResultValueStore)
    (tags : List String) (deviceStatus : DeviceStatus) : DeviceMetadata :=
  let sysName := match store with
    | some st => st.GetScalarValueAsString SysNameOID
    | none => ""
  let sysDescr := match store with
    | some st => st.GetScalarValueAsString SysDescrOID
    | none => ""
  let sysObjectID := match store with
    | some st => st.GetScalarValueAsString SysObjectIDOID
    | none => ""
  let vendor := match config.ProfileDef with
    | some profileDef => profileDef.Vendor
    | none => ""
  { ID := deviceID
    IDTags := idTags
    Name := sysName
    Description := sysDescr
    IPAddress := config.IPAddress
    SysObjectID := sysObjectID
    Profile := config.Profile
    Vendor := vendor
    Tags := tags
    Subnet := config.ResolvedSubnetName
    Status := deviceStatus }

/-- The loop body of `buildNetworkInterfacesMetadata`: a row index that
fails `strconv.Atoi` is skipped (logged), every other row produces one
interface record with the column values at that row. -/
def buildInterfacesLoop (deviceID : String) (st : ResultValueStore) :
    List String → List InterfaceMetadata
  | [] => []
  | strIndex :: rest =>
    match atoi strIndex with
    | none => buildInterfacesLoop deviceID st rest
    | some index =>
      let name := st.GetColumnValueAsString IfNameOID strIndex
      { DeviceID := deviceID
        IDTags := [interfaceNameTagKey ++ ":" ++ name]
        Index := int32ofInt index
        Name := name
        Alias := st.GetColumnValueAsString IfAliasOID strIndex
        Description := st.GetColumnValueAsString IfDescrOID strIndex
        MacAddress := st.GetColumnValueAsString IfPhysAddressOID strIndex
        AdminStatus := int32ofInt (st.GetColumnValueAsFloat IfAdminStatusOID strIndex)
        OperStatus := int32ofInt (st.GetColumnValueAsFloat IfOperStatusOID strIndex) }
        :: buildInterfacesLoop deviceID st rest

/-- Embeds `buildNetworkInterfacesMetadata`: a nil store (device never
reached) yields no interfaces and no error; a store without the `ifName`
column yields no interfaces and the wrapped lookup error; otherwise one
record per discovered `ifName` row index, in sorted index order. -/
def buildNetworkInterfacesMetadata (deviceID : String)
    (store : Option ResultValueStore) :
    List InterfaceMetadata × Option String :=
  match store with
  | none => ([], none)
  | some st =>
    match st.GetColumnIndexes IfNameOID with
    | .error e => ([], some ("no interface indexes found: " ++ e))
    | .ok indexes => (buildInterfacesLoop deviceID st indexes, none)

/-- The payload-construction part of `ReportNetworkDeviceMetadata`:
sort-uniq the tags, build the device record and the interface records,
and batch them with `metadata.PayloadMetadataBatchSize`. -/
def buildMetadataPayloads (config : CheckConfig)
    (store : Option ResultValueStore) (origTags : List String)
    (collectTime : Int) (deviceStatus : DeviceStatus) :
    List NetworkDevicesMetadata :=
  let tags := sortUniqInPlace origTags
  let device := buildNetworkDeviceMetadata config.DeviceID config.DeviceIDTags
    config store tags deviceStatus
  let interfaces := (buildNetworkInterfacesMetadata config.DeviceID store).1
  batchPayloads config.Namespace config.ResolvedSubnetName collectTime
    PayloadMetadataBatchSize device interfaces

/-- The emission loop of `ReportNetworkDeviceMetadata`: each payload is
JSON-marshalled and sent as an `EventPlatformEvent(payloadBytes,
eventType)` call; a marshal failure is logged and the function returns,
so no later payload of the run is sent.  `json.Marshal` is an external
collaborator, passed in as the fallible `marshal` parameter. -/
def emitPayloads (marshal : NetworkDevicesMetadata → Option String) :
    List NetworkDevicesMetadata → List (String × String)
  | [] => []
  | payload :: rest =>
    match marshal payload with
    | none => []
    | some payloadBytes =>
      (payloadBytes, EventTypeNetworkDevicesMetadata) :: emitPayloads marshal rest

/-- Embeds `ReportNetworkDeviceMetadata`: build the batched payloads, then
marshal and emit them in order; the result is the list of
`EventPlatformEvent` calls made to the sender. -/
def ReportNetworkDeviceMetadata (marshal : NetworkDevicesMetadata → Option String)
    (config : CheckConfig) (store : Option ResultValueStore)
    (origTags : List String) (collectTime : Int) (deviceStatus : DeviceStatus) :
    List (String × String) :=
  emitPayloads marshal (buildMetadataPayloads config store origTags collectTime deviceStatus)

/-! ## Claims C2 and C3: error handling of the metadata report -/

/-- A concrete check config used to instantiate theorems: single device
`1.2.3.4`, default namespace, no profile resolved. -/
def sampleConfig : CheckConfig :=
  { IPAddress := "1.2.3.4", DeviceID := "default:1.2.3.4",
    DeviceIDTags := ["device_namespace:default", "snmp_device:1.2.3.4"],
    Namespace := "default", ResolvedSubnetName := "10.0.0.0/24",
    Profile := "", ProfileDef := none }

/-- A concrete value store holding 101 `ifName` rows, which forces two
metadata payloads under the batch size of 100. -/
def storeManyInterfaces : ResultValueStore :=
  { ScalarValues := [(SysNameOID, .str "foo_sys_name")],
    ColumnValues := [(IfNameOID, (List.range 101).map
      (fun i => (toString (i + 1), ResultValue.str ("eth" ++ toString i))))] }

/-- A marshal stub that fails exactly on the payload carrying the device
record — that is, on the first payload of a run. -/
def marshalFailOnDevicePayload (p : NetworkDevicesMetadata) : Option String :=
  if p.Devices.isEmpty then some "second-payload" else none

/-- C2 counterexample: a run that produces two payloads where marshalling
the first fails.  The second payload is marshallable, yet
`ReportNetworkDeviceMetadata` emits nothing at all — the marshal failure
makes the function return, dropping the remaining payloads rather than
still sending them. -/
theorem reportMetadata_marshal_failure_drops_rest :
    (buildMetadataPayloads sampleConfig (some storeManyInterfaces) []
        946684800 DeviceStatusReachable).length = 2
    ∧ ((buildMetadataPayloads sampleConfig (some storeManyInterfaces) []
        946684800 DeviceStatusReachable).filterMap
          marshalFailOnDevicePayload).length = 1
    ∧ ReportNetworkDeviceMetadata marshalFailOnDevicePayload sampleConfig
        (some storeManyInterfaces) [] 946684800 DeviceStatusReachable = [] := by
  decide

/-- C2 as amended: when JSON-marshalling one payload fails during
`ReportNetworkDeviceMetadata`, that payload and every later payload of the
run are dropped; exactly the payloads marshalled before the failure are
sent, in order. -/
theorem reportMetadata_emits_prefix_before_marshal_failure
    (marshal : NetworkDevicesMetadata → Option String) (config : CheckConfig)
    (store : Option ResultValueStore) (origTags : List String)
    (collectTime : Int) (deviceStatus : DeviceStatus)
    (ps : List NetworkDevicesMetadata) (p : NetworkDevicesMetadata)
    (qs : List NetworkDevicesMetadata)
    (hsplit : buildMetadataPayloads config store origTags collectTime deviceStatus
      = ps ++ p :: qs)
    (hok : ∀ q ∈ ps, (marshal q).isSome)
    (hfail : marshal p = none) :
    ReportNetworkDeviceMetadata marshal config store origTags collectTime
        deviceStatus
      = ps.filterMap (fun q => (marshal q).map
          (fun s => (s, EventTypeNetworkDevicesMetadata))) := by
  rw [ReportNetworkDeviceMetadata, hsplit]
  clear hsplit
  induction ps with
  | nil => simp [emitPayloads, hfail]
  | cons q ps ih =>
    obtain ⟨s, hs⟩ := Option.isSome_iff_exists.mp (hok q (by simp))
    rw [List.cons_append, emitPayloads, hs,
      ih (fun q' hq' => hok q' (by simp [hq']))]
    simp [hs]

/-- The single payload produced by an unreachable-device run of
`sampleConfig` with an empty tag list. -/
def sampleUnreachablePayload : NetworkDevicesMetadata :=
  { Subnet := "10.0.0.0/24", Namespace := "default",
    Devices := [{ ID := "default:1.2.3.4",
                  IDTags := ["device_namespace:default", "snmp_device:1.2.3.4"],
                  Name := "", Description := "", IPAddress := "1.2.3.4",
                  SysObjectID := "", Profile := "", Vendor := "",
                  Subnet := "10.0.0.0/24", Tags := [],
                  Status := DeviceStatusUnreachable }],
    Interfaces := [], CollectTimestamp := 946684800 }

/-- C2 witness for the amended statement: an unreachable-device run whose
single payload fails to marshal emits nothing. -/
theorem reportMetadata_emits_prefix_witness :
    (buildMetadataPayloads sampleConfig none [] 946684800
        DeviceStatusUnreachable
      = [] ++ sampleUnreachablePayload :: [])
    ∧ (∀ q ∈ ([] : List NetworkDevicesMetadata),
        ((fun _ => (none : Option String)) q).isSome)
    ∧ (fun _ => (none : Option String)) sampleUnreachablePayload = none
    ∧ ReportNetworkDeviceMetadata (fun _ => none) sampleConfig none []
        946684800 DeviceStatusUnreachable
      = ([] : List NetworkDevicesMetadata).filterMap
          (fun q => ((fun _ => (none : Option String)) q).map
            (fun s => (s, EventTypeNetworkDevicesMetadata))) :=
  ⟨by decide, by simp, rfl,
    reportMetadata_emits_prefix_before_marshal_failure (fun _ => none)
      sampleConfig none [] 946684800 DeviceStatusUnreachable []
      sampleUnreachablePayload [] (by decide) (by simp) rfl⟩

/-- Modelled from the spec: the Check's run passes
`DeviceStatusReachable` to the metadata builder when the reachability
probe succeeded and `DeviceStatusUnreachable` otherwise (§4.7). -/
def deviceStatusFromReachable (deviceReachable : Bool) : DeviceStatus :=
  if deviceReachable then DeviceStatusReachable else DeviceStatusUnreachable

/-- When every payload of a run marshals successfully, the emission loop
sends one event per payload. -/
theorem emitPayloads_length_of_isSome
    (marshal : NetworkDevicesMetadata → Option String) :
    ∀ ps : List NetworkDevicesMetadata, (∀ p ∈ ps, (marshal p).isSome) →
      (emitPayloads marshal ps).length = ps.length := by
  intro ps
  induction ps with
  | nil => intro _; rfl
  | cons p rest ih =>
    intro h
    obtain ⟨s, hs⟩ := Option.isSome_iff_exists.mp (h p (by simp))
    simp only [emitPayloads, hs, List.length_cons]
    rw [ih (fun q hq => h q (by simp [hq]))]

/-- C3: when the main fetch failed entirely (nil value store, device not
reachable) and no profile was resolved, device metadata is still built
and emitted: exactly one payload holding exactly one device record, with
unreachable status and empty name/description/sysObjectID/profile/vendor,
and no interface records; any marshal that succeeds makes the run emit
exactly one event-platform event. -/
theorem reportMetadata_fetch_failure_still_emits (config : CheckConfig)
    (origTags : List String) (collectTime : Int)
    (hprof : config.Profile = "") (hdef : config.ProfileDef = none) :
    ∃ d, buildMetadataPayloads config none origTags collectTime
        (deviceStatusFromReachable false)
      = [{ Subnet := config.ResolvedSubnetName, Namespace := config.Namespace,
           Devices := [d], Interfaces := [], CollectTimestamp := collectTime }]
      ∧ d.Status = DeviceStatusUnreachable ∧ d.Name = "" ∧ d.Description = ""
      ∧ d.SysObjectID = "" ∧ d.Profile = "" ∧ d.Vendor = ""
      ∧ ∀ (marshal : NetworkDevicesMetadata → Option String),
          (∀ p, (marshal p).isSome) →
          (ReportNetworkDeviceMetadata marshal config none origTags collectTime
            (deviceStatusFromReachable false)).length = 1 := by
  refine ⟨buildNetworkDeviceMetadata config.DeviceID config.DeviceIDTags config
    none (sortUniqInPlace origTags) (deviceStatusFromReachable false),
    ?_, ?_, ?_, ?_, ?_, ?_, ?_, ?_⟩
  · rw [buildMetadataPayloads]
    simp only [buildNetworkInterfacesMetadata]
    rw [batchPayloads, batchPayloadsLoop]
    rfl
  · simp [buildNetworkDeviceMetadata, deviceStatusFromReachable]
  · simp [buildNetworkDeviceMetadata]
  · simp [buildNetworkDeviceMetadata]
  · simp [buildNetworkDeviceMetadata]
  · simp [buildNetworkDeviceMetadata, hprof]
  · simp [buildNetworkDeviceMetadata, hdef]
  · intro marshal hm
    rw [ReportNetworkDeviceMetadata, buildMetadataPayloads]
    simp only [buildNetworkInterfacesMetadata]
    rw [batchPayloads, batchPayloadsLoop]
    rw [emitPayloads_length_of_isSome marshal _ (fun p _ => hm p)]
    rfl

/-- C3 witness: the concrete unreachable-device run of `sampleConfig`. -/
theorem reportMetadata_fetch_failure_still_emits_witness :
    sampleConfig.Profile = "" ∧ sampleConfig.ProfileDef = none ∧
    (∃ d, buildMetadataPayloads sampleConfig none ["mytag:val1"] 946684800
        (deviceStatusFromReachable false)
      = [{ Subnet := sampleConfig.ResolvedSubnetName,
           Namespace := sampleConfig.Namespace,
           Devices := [d], Interfaces := [], CollectTimestamp := 946684800 }]
      ∧ d.Status = DeviceStatusUnreachable ∧ d.Name = "" ∧ d.Description = ""
      ∧ d.SysObjectID = "" ∧ d.Profile = "" ∧ d.Vendor = ""
      ∧ ∀ (marshal : NetworkDevicesMetadata → Option String),
          (∀ p, (marshal p).isSome) →
          (ReportNetworkDeviceMetadata marshal sampleConfig none
            ["mytag:val1"] 946684800
            (deviceStatusFromReachable false)).length = 1) :=
  ⟨rfl, rfl,
    reportMetadata_fetch_failure_still_emits sampleConfig ["mytag:val1"]
      946684800 rfl rfl⟩

/-! ## Discovery engine (C4, C5)

The Discovery Engine implementation is outside the sampled sources; only
its test is (`TestDiscovery`, asserting that discovery over
`10.10.0.0/30` yields exactly the 4 device configs `10.10.0.0` through
`10.10.0.3`).  The enumeration is modelled from the spec's end-to-end
scenario C together with that test: the engine starts at the subnet's
network address and probes every address contained in the CIDR. -/

/-- Dotted-decimal rendering of an IPv4 address; addresses are carried as
their 32-bit numeric value (`Nat`). -/
def ipv4ToString (a : Nat) : String :=
  toString (a / 16777216 % 256) ++ "." ++ toString (a / 65536 % 256) ++ "."
    ++ toString (a / 256 % 256) ++ "." ++ toString (a % 256)

/-- Modelled from the spec: Discovery Engine subnet enumeration (§4.6 and
§8 scenario C, pinned by `TestDiscovery`): starting at the network
address, every address contained in the CIDR is a probe candidate —
`2^(32-prefixLen)` consecutive addresses, the network and broadcast
addresses included. -/
def enumerateSubnet (network : Nat) (prefixLen : Nat) : List Nat :=
  (List.range (2 ^ (32 - prefixLen))).map (fun i => network + i)

/-- Modelled from the spec: a discovered-device check config synthesized by
discovery, inheriting the job's namespace and carrying the
`autodiscovery_subnet` tag of the scanned CIDR. -/
structure DeviceCheckConfig where
  IPAddress : Nat
  Namespace : String
  AutodiscoverySubnetTag : String
deriving DecidableEq, Repr

/-- Modelled from the spec (§4.6): the engine probes every enumerated
address; a successful probe promotes the address to `Discovered` and
synthesizes a device config for it. -/
def discoverSubnet (network : Nat) (prefixLen : Nat) (ns subnetCIDR : String)
    (probeOk : Nat → Bool) : List DeviceCheckConfig :=
  ((enumerateSubnet network prefixLen).filter probeOk).map
    (fun ip => { IPAddress := ip, Namespace := ns,
                 AutodiscoverySubnetTag := "autodiscovery_subnet:" ++ subnetCIDR })

/-- C4 counterexample: the subnet `10.10.0.0/30` (network address
`168427520`) is neither a /31 nor a /32, yet the discovery enumeration
includes its network address `10.10.0.0` and its broadcast address
`10.10.0.3` as probe candidates — the engine does not exclude the
boundary addresses. -/
theorem discovery_enumerates_boundary_addresses :
    ((30 : Nat) ≠ 31 ∧ (30 : Nat) ≠ 32)
    ∧ 168427520 ∈ enumerateSubnet 168427520 30
    ∧ 168427523 ∈ enumerateSubnet 168427520 30
    ∧ ipv4ToString 168427520 = "10.10.0.0"
    ∧ ipv4ToString 168427523 = "10.10.0.3" := by decide

/-- C4 as amended: for every configured CIDR subnet the Discovery Engine
enumerates every address of the subnet as a probe candidate — the network
and broadcast addresses included, not excluded: an address is enumerated
exactly when it lies in the subnet's address range. -/
theorem enumerateSubnet_mem (network a : Nat) (prefixLen : Nat) :
    a ∈ enumerateSubnet network prefixLen
      ↔ network ≤ a ∧ a < network + 2 ^ (32 - prefixLen) := by
  simp only [enumerateSubnet, List.mem_map, List.mem_range]
  generalize 2 ^ (32 - prefixLen) = N
  constructor
  · rintro ⟨i, hi, rfl⟩
    omega
  · rintro ⟨h1, h2⟩
    exact ⟨a - network, by omega, by omega⟩

/-- C5: discovery over `10.10.0.0/30` with every address answering the
probe yields exactly 4 discovered device configs — addresses `10.10.0.0`
through `10.10.0.3`, the network/broadcast boundaries included — with
pairwise-distinct addresses (one independent config per address). -/
theorem discovery_slash30_four_devices (probeOk : Nat → Bool)
    (hall : ∀ ip, probeOk ip = true) :
    (discoverSubnet 168427520 30 "default" "10.10.0.0/30" probeOk).length = 4
    ∧ (discoverSubnet 168427520 30 "default" "10.10.0.0/30" probeOk).map
        (fun c => c.IPAddress)
      = [168427520, 168427521, 168427522, 168427523]
    ∧ ((discoverSubnet 168427520 30 "default" "10.10.0.0/30" probeOk).map
        (fun c => c.IPAddress)).Nodup
    ∧ (enumerateSubnet 168427520 30).map ipv4ToString
      = ["10.10.0.0", "10.10.0.1", "10.10.0.2", "10.10.0.3"] := by
  have hfilter : (enumerateSubnet 168427520 30).filter probeOk
      = enumerateSubnet 168427520 30 :=
    List.filter_eq_self.mpr (fun a _ => hall a)
  refine ⟨?_, ?_, ?_, by decide⟩
  · rw [discoverSubnet, hfilter]; decide
  · rw [discoverSubnet, hfilter]; decide
  · rw [discoverSubnet, hfilter]; decide

/-- C5 witness: the all-answering probe. -/
theorem discovery_slash30_four_devices_witness :
    (∀ ip, (fun _ : Nat => true) ip = true)
    ∧ ((discoverSubnet 168427520 30 "default" "10.10.0.0/30"
          (fun _ => true)).length = 4
      ∧ (discoverSubnet 168427520 30 "default" "10.10.0.0/30"
          (fun _ => true)).map (fun c => c.IPAddress)
        = [168427520, 168427521, 168427522, 168427523]
      ∧ ((discoverSubnet 168427520 30 "default" "10.10.0.0/30"
          (fun _ => true)).map (fun c => c.IPAddress)).Nodup
      ∧ (enumerateSubnet 168427520 30).map ipv4ToString
        = ["10.10.0.0", "10.10.0.1", "10.10.0.2", "10.10.0.3"]) :=
  ⟨fun _ => rfl,
    discovery_slash30_four_devices (fun _ => true) (fun _ => rfl)⟩

/-! ## Check orchestration (C6, C7)

`Check.Run` is outside the sampled sources; only its tests are
(`TestCheck_Run`, `TestServiceCheckFailures`,
`TestReportDeviceMetadataWithFetchError`).  The orchestration is modelled
from the spec (§4.7) with the error strings those tests pin down. -/

/-- The steps of one check run (§4.7). -/
inductive RunStep where
  | ReachabilityCheck
  | ProfileDetect
  | Fetch
  | Report
deriving DecidableEq, Repr

/-- Modelled from the spec: the wrapped context each failing step adds to
its own error, as pinned by the expected error strings of
`TestCheck_Run`. -/
def stepErrorContext : RunStep → String
  | .ReachabilityCheck => "check device reachable: failed: "
  | .ProfileDetect => "failed to autodetect profile: "
  | .Fetch => "failed to fetch values: "
  | .Report => ""

/-- Modelled from the spec (§4.7): the fixed step order of one run. -/
def runStepOrder : List RunStep :=
  [.ReachabilityCheck, .ProfileDetect, .Fetch, .Report]

/-- Modelled from the spec (§4.7): execute the run's steps in order,
accumulating each failing step's wrapped error and continuing with the
next step (multi-error accumulation, no short-circuit).  Returns the
executed trace and the accumulated wrapped errors in step order. -/
def execRunSteps (stepErr : RunStep → Option String) :
    List RunStep → List RunStep × List String
  | [] => ([], [])
  | step :: rest =>
    let tail := execRunSteps stepErr rest
    match stepErr step with
    | some e => (step :: tail.1, (stepErrorContext step ++ e) :: tail.2)
    | none => (step :: tail.1, tail.2)

/-- Modelled from the spec (§4.7): one run of the check orchestration —
all steps execute in order; the run-level error is `none` when no step
failed and otherwise the `"; "`-join of the accumulated wrapped errors. -/
def runCheck (reachErr profileErr fetchErr : Option String) :
    List RunStep × Option String :=
  let stepErr : RunStep → Option String := fun s =>
    match s with
    | .ReachabilityCheck => reachErr
    | .ProfileDetect => profileErr
    | .Fetch => fetchErr
    | .Report => none
  let out := execRunSteps stepErr runStepOrder
  (out.1,
    if out.2.isEmpty then none else some (String.intercalate "; " out.2))

set_option maxRecDepth 8192 in
/-- C6: every run executes the full step order and reaches Report, and the
run-level error is the semicolon-separated join of the accumulated step
errors in the fixed order reachability, profile detection, fetch, each
sub-error keeping its own wrapped context; in particular the three-failure
run of `TestReportDeviceMetadataWithFetchError` yields exactly the
expected joined message. -/
theorem runCheck_reaches_report_and_joins_errors
    (reachErr profileErr fetchErr : Option String) :
    RunStep.Report ∈ (runCheck reachErr profileErr fetchErr).1
    ∧ (runCheck reachErr profileErr fetchErr).1 = runStepOrder
    ∧ (runCheck reachErr profileErr fetchErr).2
      = (if ([reachErr.map (fun e => stepErrorContext .ReachabilityCheck ++ e),
              profileErr.map (fun e => stepErrorContext .ProfileDetect ++ e),
              fetchErr.map (fun e => stepErrorContext .Fetch ++ e)].reduceOption).isEmpty
         then none
         else some (String.intercalate "; "
            ([reachErr.map (fun e => stepErrorContext .ReachabilityCheck ++ e),
              profileErr.map (fun e => stepErrorContext .ProfileDetect ++ e),
              fetchErr.map (fun e => stepErrorContext .Fetch ++ e)].reduceOption)))
    ∧ (runCheck (some "no value for GetNext")
        (some ("failed to fetch sysobjectid: cannot get sysobjectid: "
          ++ "no value"))
        (some ("failed to fetch scalar oids with batching: failed to fetch "
          ++ "scalar oids: fetch scalar: error getting oids "
          ++ "`[1.3.6.1.2.1.1.5.0 1.3.6.1.2.1.1.1.0 1.3.6.1.2.1.1.2.0 "
          ++ "1.3.6.1.2.1.1.3.0]`: device failure"))).2
      = some ("check device reachable: failed: no value for GetNext; "
          ++ "failed to autodetect profile: failed to fetch sysobjectid: "
          ++ "cannot get sysobjectid: no value; "
          ++ "failed to fetch values: failed to fetch scalar oids with "
          ++ "batching: failed to fetch scalar oids: fetch scalar: error "
          ++ "getting oids `[1.3.6.1.2.1.1.5.0 1.3.6.1.2.1.1.1.0 "
          ++ "1.3.6.1.2.1.1.2.0 1.3.6.1.2.1.1.3.0]`: device failure") := by
  refine ⟨?_, ?_, ?_, by decide⟩
  · rcases reachErr <;> rcases profileErr <;> rcases fetchErr <;>
      simp [runCheck, execRunSteps, runStepOrder]
  · rcases reachErr <;> rcases profileErr <;> rcases fetchErr <;>
      simp [runCheck, execRunSteps, runStepOrder]
  · rcases reachErr <;> rcases profileErr <;> rcases fetchErr <;>
      simp [runCheck, execRunSteps, runStepOrder, stepErrorContext,
        String.intercalate]

/-- `metrics.ServiceCheckOK` -/
def ServiceCheckOK : Int := 0

/-- `metrics.ServiceCheckCritical` -/
def ServiceCheckCritical : Int := 2

/-- The aggregator sender activity of one run that the diagnostics claims
are about: service checks `(status, message)`, the submitted-metrics
diagnostic gauge values, and the counts of check-duration gauges,
check-interval monotonic counts and `Commit` calls. -/
structure SenderActivity where
  ServiceChecks : List (Int × String)
  SubmittedMetricsGauges : List Int
  CheckDurationGauges : Nat
  CheckIntervalCounts : Nat
  Commits : Nat
deriving DecidableEq, Repr

/-- The message `"can't connect"` (built by concatenation to keep the
apostrophe out of the source text). -/
def cantConnectMsg : String :=
  "can" ++ String.singleton (Char.ofNat 39) ++ "t connect"

/-- Modelled from the spec (§4.4, §4.7, §7, pinned by
`TestServiceCheckFailures` and `TestCheck_Run`): one run of the check
against one device.  A session connection error is fatal for data
collection: the run error becomes `"snmp connection error: " ++ e` and no
metrics are submitted; otherwise the run error is the joined step error
of `runCheck` and `submitted` samples were sent.  In every case the run
ends with the report tail: exactly one submitted-metrics diagnostic gauge
(0 on connection failure), one check-duration gauge, one check-interval
count, one service check (OK with empty message when no error, Critical
with the full error message otherwise) and one final `Commit`. -/
def runDevice (connectErr : Option String)
    (reachErr profileErr fetchErr : Option String) (submitted : Int) :
    SenderActivity × Option String :=
  let runErr : Option String :=
    match connectErr with
    | some e => some ("snmp connection error: " ++ e)
    | none => (runCheck reachErr profileErr fetchErr).2
  let submittedCount : Int :=
    match connectErr with
    | some _ => 0
    | none => submitted
  ({ ServiceChecks := [match runErr with
      | some msg => (ServiceCheckCritical, msg)
      | none => (ServiceCheckOK, "")],
     SubmittedMetricsGauges := [submittedCount],
     CheckDurationGauges := 1,
     CheckIntervalCounts := 1,
     Commits := 1 }, runErr)

/-- C7: a run whose session connection fails with `"can't connect"` emits
one Critical service check with message exactly
`"snmp connection error: can't connect"` and a submitted-metrics
diagnostic gauge of 0 — whatever the later steps would have reported; and
for every run whatsoever, the diagnostics (submitted-metrics gauge,
check-duration gauge, check-interval count) and the final Commit are
emitted exactly once. -/
theorem runDevice_connection_error_and_diagnostics_once
    (reachErr profileErr fetchErr : Option String) (submitted : Int) :
    ((runDevice (some cantConnectMsg) reachErr profileErr fetchErr
        submitted).1.ServiceChecks
      = [(ServiceCheckCritical, "snmp connection error: " ++ cantConnectMsg)]
    ∧ (runDevice (some cantConnectMsg) reachErr profileErr fetchErr
        submitted).1.SubmittedMetricsGauges = [0])
    ∧ ∀ (connectErr : Option String),
        (runDevice connectErr reachErr profileErr fetchErr
          submitted).1.SubmittedMetricsGauges.length = 1
        ∧ (runDevice connectErr reachErr profileErr fetchErr
            submitted).1.ServiceChecks.length = 1
        ∧ (runDevice connectErr reachErr profileErr fetchErr
            submitted).1.CheckDurationGauges = 1
        ∧ (runDevice connectErr reachErr profileErr fetchErr
            submitted).1.CheckIntervalCounts = 1
        ∧ (runDevice connectErr reachErr profileErr fetchErr
            submitted).1.Commits = 1 := by
  refine ⟨⟨rfl, rfl⟩, ?_⟩
  intro connectErr
  rcases connectErr with _ | e
  · rcases h : (runCheck reachErr profileErr fetchErr).2 with _ | msg <;>
      simp [runDevice, h]
  · simp [runDevice]

/-! ## Profile catalog and matching (C8)

The profile catalog implementation is outside the sampled sources; only
its tests are (the `TestProfile` and `TestCheck_Run` cases).  Matching is
modelled from the spec (§4.3). -/

/-- Modelled from the spec: a loaded profile — its name and the
sysObjectID match OID it declares, with OIDs as lists of numeric
components. -/
structure ProfileEntry where
  name : String
  matchOid : List Nat
deriving DecidableEq, Repr

/-- Modelled from the spec: the distinct error returned when no loaded
profile matches the sysObjectID. -/
def noProfileMatchError : String := "no profile matching sysObjectID"

/-- Modelled from the spec (§4.3): `GetProfileForSysObjectID` — among all
loaded profiles whose declared match OID is a prefix of (or equal to) the
input, the one with the longest matching prefix wins; when no profile
matches, the distinct no-profile error is returned. -/
def GetProfileForSysObjectID (profiles : List ProfileEntry)
    (sysObjectID : List Nat) : Except String ProfileEntry :=
  match profiles.filter (fun p => p.matchOid.isPrefixOf sysObjectID) with
  | [] => .error noProfileMatchError
  | m :: ms =>
    .ok (ms.foldl
      (fun best p =>
        if best.matchOid.length < p.matchOid.length then p else best) m)

/-- C8: for loaded profiles P1 and P2 whose match OIDs are O1 and O2 with
O1 a strict prefix of O2, looking up a sysObjectID equal to O2 returns P2
and not P1, in either catalog order (longest matching prefix wins); and a
sysObjectID matched by no loaded profile fails with the distinct
no-profile error rather than returning any profile. -/
theorem getProfile_longest_prefix_wins (P1 P2 : ProfileEntry)
    (hpre : P1.matchOid <+: P2.matchOid) (hne : P1.matchOid ≠ P2.matchOid) :
    GetProfileForSysObjectID [P1, P2] P2.matchOid = .ok P2
    ∧ GetProfileForSysObjectID [P2, P1] P2.matchOid = .ok P2
    ∧ ∀ (profiles : List ProfileEntry) (s : List Nat),
        (∀ p ∈ profiles, ¬ p.matchOid <+: s) →
        GetProfileForSysObjectID profiles s = .error noProfileMatchError := by
  have hlt : P1.matchOid.length < P2.matchOid.length := by
    rcases Nat.lt_or_ge P1.matchOid.length P2.matchOid.length with h | h
    · exact h
    · exact absurd (List.IsPrefix.eq_of_length hpre
        (Nat.le_antisymm hpre.length_le h)) hne
  have hm1 : P1.matchOid.isPrefixOf P2.matchOid = true :=
    List.isPrefixOf_iff_prefix.mpr hpre
  have hm2 : P2.matchOid.isPrefixOf P2.matchOid = true :=
    List.isPrefixOf_iff_prefix.mpr (List.prefix_refl _)
  refine ⟨?_, ?_, ?_⟩
  · rw [GetProfileForSysObjectID]
    simp only [List.filter_cons, hm1, hm2, if_pos, List.filter_nil]
    simp [List.foldl, hlt]
  · rw [GetProfileForSysObjectID]
    simp only [List.filter_cons, hm1, hm2, if_pos, List.filter_nil]
    simp [List.foldl, Nat.lt_asymm hlt]
  · intro profiles s hnone
    rw [GetProfileForSysObjectID]
    have : profiles.filter (fun p => p.matchOid.isPrefixOf s) = [] := by
      rw [List.filter_eq_nil_iff]
      intro p hp
      simpa [List.isPrefixOf_iff_prefix] using hnone p hp
    rw [this]

/-- C8 witness: a vendor sub-profile whose match OID extends the generic
profile's match OID wins the lookup for its own sysObjectID; an OID
under a branch that no profile declares yields the no-profile error. -/
theorem getProfile_longest_prefix_wins_witness :
    ({ name := "generic-router", matchOid := [1, 3, 6, 1, 4, 1] }
        : ProfileEntry).matchOid
      <+: ({ name := "f5-big-ip", matchOid := [1, 3, 6, 1, 4, 1, 3375] }
        : ProfileEntry).matchOid
    ∧ ({ name := "generic-router", matchOid := [1, 3, 6, 1, 4, 1] }
        : ProfileEntry).matchOid
      ≠ ({ name := "f5-big-ip", matchOid := [1, 3, 6, 1, 4, 1, 3375] }
        : ProfileEntry).matchOid
    ∧ (GetProfileForSysObjectID
        [{ name := "generic-router", matchOid := [1, 3, 6, 1, 4, 1] },
         { name := "f5-big-ip", matchOid := [1, 3, 6, 1, 4, 1, 3375] }]
        [1, 3, 6, 1, 4, 1, 3375]
      = .ok { name := "f5-big-ip", matchOid := [1, 3, 6, 1, 4, 1, 3375] })
    ∧ (GetProfileForSysObjectID
        [{ name := "generic-router", matchOid := [1, 3, 6, 1, 4, 1] },
         { name := "f5-big-ip", matchOid := [1, 3, 6, 1, 4, 1, 3375] }]
        [1, 999999]
      = .error noProfileMatchError) :=
  ⟨⟨[3375], rfl⟩, by decide,
    ((getProfile_longest_prefix_wins
        { name := "generic-router", matchOid := [1, 3, 6, 1, 4, 1] }
        { name := "f5-big-ip", matchOid := [1, 3, 6, 1, 4, 1, 3375] }
        ⟨[3375], rfl⟩ (by decide)).1),
    ((getProfile_longest_prefix_wins
        { name := "generic-router", matchOid := [1, 3, 6, 1, 4, 1] }
        { name := "f5-big-ip", matchOid := [1, 3, 6, 1, 4, 1, 3375] }
        ⟨[3375], rfl⟩ (by decide)).2.2
      [{ name := "generic-router", matchOid := [1, 3, 6, 1, 4, 1] },
       { name := "f5-big-ip", matchOid := [1, 3, 6, 1, 4, 1, 3375] }]
      [1, 999999] (by decide))⟩

/-! ## Metric submission types (C9)

The metric report builder (`report_metrics.go` and the gosnmp value
conversion) is outside the sampled sources; only its test is
(`TestSupportedMetricTypes`).  The type dispatch is modelled from the
spec (§4.4). -/

/-- The SNMP value types (gosnmp `Asn1BER`) relevant to scalar metric
submission. -/
inductive Asn1Type where
  | Integer
  | OctetString
  | Gauge32
  | Counter32
  | Counter64
  | TimeTicks
deriving DecidableEq, Repr

/-- An aggregator submission call for one sample. -/
inductive MetricCall where
  | Rate (name : String) (value : Int)
  | Gauge (name : String) (value : Int)
deriving DecidableEq, Repr

/-- Modelled from the spec (§4.4): the submission kind the fetcher tags a
value with — `"counter"` for `Counter32`/`Counter64`, empty (default
gauge) for every other numeric type. -/
def snmpSubmissionKind : Asn1Type → String
  | .Counter32 => "counter"
  | .Counter64 => "counter"
  | _ => ""

/-- Modelled from the spec (§4.4, pinned by `TestSupportedMetricTypes`):
`MetricSender.sendMetric` for a scalar symbol — values tagged `"counter"`
submit as a rate, everything else as a gauge, under the `"snmp."` metric
prefix. -/
def sendMetric (metricName : String) (t : Asn1Type) (value : Int) :
    MetricCall :=
  if snmpSubmissionKind t = "counter" then
    .Rate ("snmp." ++ metricName) value
  else
    .Gauge ("snmp." ++ metricName) value

/-- C9: a scalar symbol fetched with SNMP type Counter32 or Counter64 is
submitted as a rate-style sample; each of the other numeric types
(Integer, OctetString-encoded numeric, Gauge, TimeTicks) is submitted as
a gauge-style sample. -/
theorem sendMetric_counter_rate_others_gauge (metricName : String)
    (value : Int) :
    sendMetric metricName .Counter32 value
        = .Rate ("snmp." ++ metricName) value
    ∧ sendMetric metricName .Counter64 value
        = .Rate ("snmp." ++ metricName) value
    ∧ sendMetric metricName .Integer value
        = .Gauge ("snmp." ++ metricName) value
    ∧ sendMetric metricName .OctetString value
        = .Gauge ("snmp." ++ metricName) value
    ∧ sendMetric metricName .Gauge32 value
        = .Gauge ("snmp." ++ metricName) value
    ∧ sendMetric metricName .TimeTicks value
        = .Gauge ("snmp." ++ metricName) value := by
  refine ⟨rfl, rfl, ?_, ?_, ?_, ?_⟩ <;> simp [sendMetric, snmpSubmissionKind]

end Snmp
